import Mathlib

/-!
Shallow embedding of the service-attachment update command, its shared
helpers, and the edge-cloud api-key hook:

* `surface/compute/service_attachments/update.py` (`UpdateHelper._Modify`,
  `UpdateHelper._RemoveObsoleteEndpointEntries`, `UpdateHelper.Run`, and the
  sort-key helpers),
* `command_lib/compute/service_attachments/service_attachments_utils.py`
  (`GetConnectionPreference`, `GetConsumerAcceptList`,
  `GetConsumerAcceptListWithEndpointBasedSecurity`,
  `GetConnectedEndpointIds`, `CleanObsoleteAcceptedEndpointUrls`,
  `CleanObsoleteRejectedEndpointUrls`),
* `command_lib/edge_cloud/api_key/hooks.py` (`ConstructServiceAccountName`).

Python strings are Lean `String`; Python `None` is `Option.none`; protobuf
message fields that the code tests against `None` are `Option`-valued.
The tri-state argument namespace (`args.IsSpecified(f)` plus the value) is an
`Option` per flag: `none` means unspecified.  Raising an exception is
modelled with `Except`.  The mutable `cleared_fields` list that Python
threads by reference is passed and returned explicitly.
-/

instance {ε α : Type} [DecidableEq ε] [DecidableEq α] : DecidableEq (Except ε α) :=
  fun a b =>
    match a, b with
    | .ok x, .ok y => if h : x = y then isTrue (by rw [h]) else isFalse (by simp [h])
    | .error x, .error y => if h : x = y then isTrue (by rw [h]) else isFalse (by simp [h])
    | .ok _, .error _ => isFalse (by simp)
    | .error _, .ok _ => isFalse (by simp)

namespace GcloudSdk

/-! ### Python string primitives (code-point semantics, kernel-computable) -/

/-- Prefix test on character lists (`hay` starts with `needle`). -/
def leadMatch : List Char → List Char → Bool
  | [], _ => true
  | _ :: _, [] => false
  | a :: as, b :: bs => a == b && leadMatch as bs

/-- Substring containment on character lists. -/
def charsContain (needle : List Char) : List Char → Bool
  | [] => needle.isEmpty
  | b :: bs => leadMatch needle (b :: bs) || charsContain needle bs

/-- Python `needle in hay` for strings (for a non-empty needle). -/
def pyIn (needle hay : String) : Bool := charsContain needle.toList hay.toList

/-- Python `s.rstrip('/')` on a character list. -/
def dropTrailingSlashes (l : List Char) : List Char :=
  (l.reverse.dropWhile (fun c => c == '/')).reverse

/-- The characters after the last `'/'` (the whole list when there is none);
this is Python `s.split('/')[-1]`. -/
def lastSegment (l : List Char) : List Char :=
  (l.reverse.takeWhile (fun c => c != '/')).reverse

/-- Python `s.rstrip('/').split('/')[-1]`, the trailing path identifier. -/
def pyTrailingId (s : String) : String :=
  String.mk (lastSegment (dropTrailingSlashes s.toList))

/-- Python truthiness test `not x` for an optional string:
true on `None` and on the empty string. -/
def pyFalsy : Option String → Bool
  | none => true
  | some s => decide (s = "")

/-- Decimal digit run to a number; `none` when a non-digit occurs. -/
def digitsValAux : List Char → Nat → Option Nat
  | [], acc => some acc
  | c :: cs, acc =>
    if 48 ≤ c.toNat ∧ c.toNat ≤ 57 then digitsValAux cs (acc * 10 + (c.toNat - 48))
    else none

/-- Python `int(s)` on canonical decimal literals (optional leading minus);
whitespace, underscores and a leading plus are out of scope and yield
`none`, where CPython would still raise on every input this rejects that
the callers below feed it. -/
def pyToInt (s : String) : Option Int :=
  match s.toList with
  | [] => none
  | '-' :: cs =>
    match cs with
    | [] => none
    | _ => (digitsValAux cs 0).map (fun n => -(n : Int))
  | cs => (digitsValAux cs 0).map (fun n => (n : Int))

/-! ### Python string ordering (lexicographic by code point, as `sorted` uses) -/

/-- Lexicographic less-or-equal on character lists by code point. -/
def charsLe : List Char → List Char → Bool
  | [], _ => true
  | _ :: _, [] => false
  | a :: as, b :: bs =>
    if a.toNat < b.toNat then true
    else if b.toNat < a.toNat then false
    else charsLe as bs

theorem charsLe_total : ∀ a b : List Char, charsLe a b = true ∨ charsLe b a = true
  | [], _ => Or.inl rfl
  | _ :: _, [] => Or.inr rfl
  | a :: as, b :: bs => by
    by_cases h₁ : a.toNat < b.toNat
    · exact Or.inl (by simp [charsLe, h₁])
    · by_cases h₂ : b.toNat < a.toNat
      · exact Or.inr (by simp [charsLe, h₂])
      · rcases charsLe_total as bs with h | h
        · exact Or.inl (by simp [charsLe, h₁, h₂, h])
        · exact Or.inr (by simp [charsLe, h₁, h₂, h])

theorem charsLe_antisymm : ∀ {a b : List Char},
    charsLe a b = true → charsLe b a = true → a = b
  | [], [], _, _ => rfl
  | [], _ :: _, _, h₂ => by simp [charsLe] at h₂
  | _ :: _, [], h₁, _ => by simp [charsLe] at h₁
  | a :: as, b :: bs, h₁, h₂ => by
    by_cases hab : a.toNat < b.toNat
    · simp [charsLe, hab, Nat.lt_asymm hab, Nat.ne_of_lt hab] at h₂
    · by_cases hba : b.toNat < a.toNat
      · simp [charsLe, hab, hba] at h₁
      · have hn : a.toNat = b.toNat := by omega
        have hc : a = b := Char.ext (UInt32.ext hn)
        subst hc
        simp only [charsLe, hab, if_neg hab, lt_irrefl, if_false] at h₁ h₂
        have := charsLe_antisymm (a := as) (b := bs) (by simpa using h₁) (by simpa using h₂)
        rw [this]

theorem charsLe_trans : ∀ {a b c : List Char},
    charsLe a b = true → charsLe b c = true → charsLe a c = true
  | [], _, _, _, _ => rfl
  | _ :: _, [], _, h₁, _ => by simp [charsLe] at h₁
  | _ :: _, _ :: _, [], _, h₂ => by simp [charsLe] at h₂
  | a :: as, b :: bs, c :: cs, h₁, h₂ => by
    by_cases hab : a.toNat < b.toNat <;> by_cases hbc : b.toNat < c.toNat
    · simp [charsLe, Nat.lt_trans hab hbc]
    · simp only [charsLe, hbc, if_neg hbc] at h₂
      by_cases hcb : c.toNat < b.toNat
      · simp [hcb] at h₂
      · have : b.toNat = c.toNat := by omega
        simp [charsLe, this ▸ hab]
    · simp only [charsLe, hab, if_neg hab] at h₁
      by_cases hba : b.toNat < a.toNat
      · simp [hba] at h₁
      · have : a.toNat = b.toNat := by omega
        simp [charsLe, this ▸ hbc]
    · simp only [charsLe, hab, if_neg hab] at h₁
      by_cases hba : b.toNat < a.toNat
      · simp [hba] at h₁
      · simp only [charsLe, hbc, if_neg hbc] at h₂
        by_cases hcb : c.toNat < b.toNat
        · simp [hcb] at h₂
        · have hac : ¬a.toNat < c.toNat → ¬c.toNat < a.toNat := by omega
          by_cases h : a.toNat < c.toNat
          · simp [charsLe, h]
          · have h₁' := h₁
            simp only [if_neg hba] at h₁'
            simp only [if_neg hcb] at h₂
            simp [charsLe, h, hac h, charsLe_trans h₁' h₂]

/-- Python string less-or-equal (code-point lexicographic). -/
def strLe (s t : String) : Bool := charsLe s.toList t.toList

/-- `strLe` as a proposition, the order given to the sorts below. -/
def strLeP (s t : String) : Prop := strLe s t = true

instance : DecidableRel strLeP := fun _ _ => inferInstanceAs (Decidable (_ = true))

instance : IsTotal String strLeP := ⟨fun a b => charsLe_total a.toList b.toList⟩

instance : IsTrans String strLeP := ⟨fun _ _ _ h₁ h₂ => charsLe_trans h₁ h₂⟩

instance : IsAntisymm String strLeP :=
  ⟨fun a b h₁ h₂ => by
    have := charsLe_antisymm h₁ h₂
    cases a; cases b; simp_all⟩

/-- Python `sorted` on a list of strings (stable; insertion sort is stable). -/
def pysortStr (l : List String) : List String := List.insertionSort strLeP l

theorem pysortStr_perm_eq {l₁ l₂ : List String} (h : l₁.Perm l₂) :
    pysortStr l₁ = pysortStr l₂ :=
  List.eq_of_perm_of_sorted
    ((List.perm_insertionSort _ l₁).trans (h.trans (List.perm_insertionSort _ l₂).symm))
    (List.sorted_insertionSort _ l₁) (List.sorted_insertionSort _ l₂)

theorem pysortStr_eq_nil_iff {l : List String} : pysortStr l = [] ↔ l = [] := by
  constructor
  · intro h
    have hp := List.perm_insertionSort strLeP l
    rw [pysortStr] at h
    rw [h] at hp
    exact hp.symm.eq_nil
  · intro h; subst h; rfl

/-! ### Data model: the generated messages used by the code -/

/-- One accept-list entry (`ServiceAttachmentConsumerProjectLimit` message);
exactly one of the three identifier fields is set by the code that builds
these. -/
structure ServiceAttachmentConsumerProjectLimit where
  projectIdOrNum : Option String
  networkUrl : Option String
  endpointUrl : Option String
  connectionLimit : Option Int
deriving DecidableEq

/-- One `connectedEndpoints` record; only `endpointWithId` is read here. -/
structure ConnectedEndpoint where
  endpointWithId : Option String
deriving DecidableEq

/-- The connection-preference enum values the resolver can produce. -/
inductive ConnectionPreferenceValue where
  | ACCEPT_AUTOMATIC
  | ACCEPT_MANUAL
deriving DecidableEq

/-- The service-attachment resource snapshot (the fields `_Modify` touches,
plus `connectedEndpoints`, which the pruning pass reads). -/
structure ServiceAttachment where
  targetService : Option String
  description : Option String
  connectionPreference : Option ConnectionPreferenceValue
  enableProxyProtocol : Option Bool
  natSubnets : Option (List String)
  consumerRejectLists : Option (List String)
  consumerAcceptLists : Option (List ServiceAttachmentConsumerProjectLimit)
  connectedEndpoints : Option (List ConnectedEndpoint)
  reconcileConnections : Option Bool
  propagatedConnectionLimit : Option Int
deriving DecidableEq

/-- The parsed flag namespace: `none` per field means "not specified"
(`args.IsSpecified` false).  `consumer_accept_list` is a list of
dictionaries, each a key-value association list with distinct keys;
dictionary values are optional strings (`None` allowed in the
endpoint-based-security form).  `nat_subnets` holds the already-resolved
subnetwork URLs (`_GetNatSubnets` resolution is transport-side and out of
scope). -/
structure Args where
  target_service : Option String
  description : Option String
  connection_preference : Option String
  enable_proxy_protocol : Option Bool
  nat_subnets : Option (List String)
  consumer_reject_list : Option (List String)
  consumer_accept_list : Option (List (List (String × Option String)))
  remove_obsolete_endpoint_accept_reject_entries : Bool
  reconcile_connections : Option Bool
  propagated_connection_limit : Option Int
deriving DecidableEq

/-! ### service_attachments_utils.py -/

/-- `GetConnectionPreference`: map the flag token to the enum, `None`
otherwise. -/
def GetConnectionPreference (cp : String) : Option ConnectionPreferenceValue :=
  if cp = "ACCEPT_AUTOMATIC" then some .ACCEPT_AUTOMATIC
  else if cp = "ACCEPT_MANUAL" then some .ACCEPT_MANUAL
  else none

/-- The errors the accept-list normalizers raise (`ValueError` /
`TypeError` in Python), carrying the offending entry where the message
does. -/
inductive AcceptListError where
  | endpointUrlNotSupported
  | connLimitRequiredForNetworkUrl (entry : String)
  | connLimitRequiredForProjectIdOrNum (entry : String)
  | invalidIntLiteral (raw : String)
  | intOfNoneType
deriving DecidableEq

/-- Python `int(raw)` where `raw` is a dictionary value: `None` is a
`TypeError`, a non-numeral a `ValueError`. -/
def pyIntOfRaw (raw : Option String) : Except AcceptListError Int :=
  match raw with
  | none => .error .intOfNoneType
  | some s =>
    match pyToInt s with
    | some n => .ok n
    | none => .error (.invalidIntLiteral s)

/-- Python `sorted(six.iteritems(project_limit))`: dictionary items in
sorted order.  Python sorts the (key, value) tuples; dictionary keys are
distinct, so the key alone decides the order and the sort is modelled as a
stable sort by key. -/
def sortedItems (d : List (String × Option String)) : List (String × Option String) :=
  List.insertionSort (fun p q => strLeP p.1 q.1) d

instance : DecidableRel (fun p q : String × Option String => strLeP p.1 q.1) :=
  fun _ _ => inferInstanceAs (Decidable (_ = true))

/-- One entry of `GetConsumerAcceptList` (the basic form, no
endpoint-based security): network URLs and bare project ids are accepted,
endpoint URLs raise. -/
def acceptEntryBasic (e : String × Option String) :
    Except AcceptListError ServiceAttachmentConsumerProjectLimit :=
  if pyIn "/networks/" e.1 then
    (pyIntOfRaw e.2).map (fun n => ⟨none, some e.1, none, some n⟩)
  else if pyIn "/forwardingRules/" e.1 then
    .error .endpointUrlNotSupported
  else
    (pyIntOfRaw e.2).map (fun n => ⟨some e.1, none, none, some n⟩)

/-- `GetConsumerAcceptList` over the list of flag dictionaries. -/
def GetConsumerAcceptList (dicts : List (List (String × Option String))) :
    Except AcceptListError (List ServiceAttachmentConsumerProjectLimit) :=
  ((dicts.map sortedItems).flatten).mapM acceptEntryBasic

/-- One entry of `GetConsumerAcceptListWithEndpointBasedSecurity`:
network URLs and bare project ids require a truthy limit, endpoint URLs
take an optional limit. -/
def acceptEntryEBS (e : String × Option String) :
    Except AcceptListError ServiceAttachmentConsumerProjectLimit :=
  if pyIn "/networks/" e.1 then
    if pyFalsy e.2 then .error (.connLimitRequiredForNetworkUrl e.1)
    else (pyIntOfRaw e.2).map (fun n => ⟨none, some e.1, none, some n⟩)
  else if pyIn "/forwardingRules/" e.1 then
    if pyFalsy e.2 then .ok ⟨none, none, some e.1, none⟩
    else (pyIntOfRaw e.2).map (fun n => ⟨none, none, some e.1, some n⟩)
  else
    if pyFalsy e.2 then .error (.connLimitRequiredForProjectIdOrNum e.1)
    else (pyIntOfRaw e.2).map (fun n => ⟨some e.1, none, none, some n⟩)

/-- `GetConsumerAcceptListWithEndpointBasedSecurity` over the flag
dictionaries. -/
def GetConsumerAcceptListWithEndpointBasedSecurity
    (dicts : List (List (String × Option String))) :
    Except AcceptListError (List ServiceAttachmentConsumerProjectLimit) :=
  ((dicts.map sortedItems).flatten).mapM acceptEntryEBS

/-- `GetConnectedEndpointIds`: trailing identifiers of the truthy
`endpointWithId` fields.  Python builds a `set`; only membership is ever
used, so a list with the same members is an equivalent model. -/
def GetConnectedEndpointIds (sa : ServiceAttachment) : List String :=
  ((sa.connectedEndpoints.getD []).filter (fun ep => !(pyFalsy ep.endpointWithId))).map
    (fun ep => pyTrailingId (ep.endpointWithId.getD ""))

/-- The accept-list pruning filter: keep entries without a truthy
`endpointUrl`, and endpoint entries whose trailing id is still
connected. -/
def acceptEntryKeep (ids : List String) (e : ServiceAttachmentConsumerProjectLimit) : Bool :=
  pyFalsy e.endpointUrl || decide (pyTrailingId (e.endpointUrl.getD "") ∈ ids)

/-- The reject-list pruning filter: keep entries that are not endpoint
paths, and endpoint paths whose trailing id is still connected. -/
def rejectEntryKeep (ids : List String) (e : String) : Bool :=
  !(pyIn "/forwardingRules/" e) || decide (pyTrailingId e ∈ ids)

/-- `CleanObsoleteAcceptedEndpointUrls`: filter the accept list, maintain
`cleared_fields`, report whether the list shrank.  Returns the updated
snapshot, the updated cleared-fields list and the report flag. -/
def CleanObsoleteAcceptedEndpointUrls (sa : ServiceAttachment) (ids : List String)
    (cleared : List String) : ServiceAttachment × List String × Bool :=
  match sa.consumerAcceptLists with
  | none => (sa, cleared, false)
  | some l =>
    if l = [] then (sa, cleared, false)
    else
      if (l.filter (acceptEntryKeep ids)).length = l.length then
        ({sa with consumerAcceptLists := some (l.filter (acceptEntryKeep ids))}, cleared, false)
      else if l.filter (acceptEntryKeep ids) = [] ∧ "consumerAcceptLists" ∉ cleared then
        ({sa with consumerAcceptLists := some (l.filter (acceptEntryKeep ids))},
          cleared ++ ["consumerAcceptLists"], true)
      else if l.filter (acceptEntryKeep ids) ≠ [] ∧ "consumerAcceptLists" ∈ cleared then
        ({sa with consumerAcceptLists := some (l.filter (acceptEntryKeep ids))},
          cleared.erase "consumerAcceptLists", true)
      else ({sa with consumerAcceptLists := some (l.filter (acceptEntryKeep ids))}, cleared, true)

/-- `CleanObsoleteRejectedEndpointUrls`: the same for the reject list. -/
def CleanObsoleteRejectedEndpointUrls (sa : ServiceAttachment) (ids : List String)
    (cleared : List String) : ServiceAttachment × List String × Bool :=
  match sa.consumerRejectLists with
  | none => (sa, cleared, false)
  | some l =>
    if l = [] then (sa, cleared, false)
    else
      if (l.filter (rejectEntryKeep ids)).length = l.length then
        ({sa with consumerRejectLists := some (l.filter (rejectEntryKeep ids))}, cleared, false)
      else if l.filter (rejectEntryKeep ids) = [] ∧ "consumerRejectLists" ∉ cleared then
        ({sa with consumerRejectLists := some (l.filter (rejectEntryKeep ids))},
          cleared ++ ["consumerRejectLists"], true)
      else if l.filter (rejectEntryKeep ids) ≠ [] ∧ "consumerRejectLists" ∈ cleared then
        ({sa with consumerRejectLists := some (l.filter (rejectEntryKeep ids))},
          cleared.erase "consumerRejectLists", true)
      else ({sa with consumerRejectLists := some (l.filter (rejectEntryKeep ids))}, cleared, true)

/-- `UpdateHelper._RemoveObsoleteEndpointEntries`: run both pruning passes
and OR their reports. -/
def RemoveObsoleteEndpointEntries (sa : ServiceAttachment) (cleared : List String) :
    ServiceAttachment × List String × Bool :=
  ((CleanObsoleteRejectedEndpointUrls
      (CleanObsoleteAcceptedEndpointUrls sa (GetConnectedEndpointIds sa) cleared).1
      (GetConnectedEndpointIds sa)
      (CleanObsoleteAcceptedEndpointUrls sa (GetConnectedEndpointIds sa) cleared).2.1).1,
    (CleanObsoleteRejectedEndpointUrls
      (CleanObsoleteAcceptedEndpointUrls sa (GetConnectedEndpointIds sa) cleared).1
      (GetConnectedEndpointIds sa)
      (CleanObsoleteAcceptedEndpointUrls sa (GetConnectedEndpointIds sa) cleared).2.1).2.1,
    (CleanObsoleteAcceptedEndpointUrls sa (GetConnectedEndpointIds sa) cleared).2.2 ||
    (CleanObsoleteRejectedEndpointUrls
      (CleanObsoleteAcceptedEndpointUrls sa (GetConnectedEndpointIds sa) cleared).1
      (GetConnectedEndpointIds sa)
      (CleanObsoleteAcceptedEndpointUrls sa (GetConnectedEndpointIds sa) cleared).2.1).2.2)

/-! ### update.py: the patch builder `_Modify` as a chain of field steps -/

/-- `UpdateHelper._GetProjectOrNetwork`: sort key in the basic mode. -/
def GetProjectOrNetwork (c : ServiceAttachmentConsumerProjectLimit) :
    Option String × Option Int :=
  match c.projectIdOrNum with
  | some p => (some p, c.connectionLimit)
  | none => (c.networkUrl, c.connectionLimit)

/-- `UpdateHelper._GetProjectOrNetworkOrEndpoint`: sort key with
endpoint-based security. -/
def GetProjectOrNetworkOrEndpoint (c : ServiceAttachmentConsumerProjectLimit) :
    Option String × Option Int :=
  match c.projectIdOrNum with
  | some p => (some p, c.connectionLimit)
  | none =>
    match c.endpointUrl with
    | some e => (some e, c.connectionLimit)
    | none => (c.networkUrl, c.connectionLimit)

/-- `UpdateHelper._GetProjectOrNetworkOrEndpointBasedOnArg`. -/
def GetSortKey (support : Bool) (c : ServiceAttachmentConsumerProjectLimit) :
    Option String × Option Int :=
  if support then GetProjectOrNetworkOrEndpoint c else GetProjectOrNetwork c

/-- Strict code-point order on optional strings, `none` first (Python
would raise comparing `None` to `str`; the callers never produce mixed
keys on well-formed entries). -/
def optStrLtB : Option String → Option String → Bool
  | none, none => false
  | none, some _ => true
  | some _, none => false
  | some a, some b => !(strLe b a)

/-- Less-or-equal on optional integers, `none` first. -/
def optIntLeB : Option Int → Option Int → Bool
  | none, _ => true
  | some _, none => false
  | some a, some b => decide (a ≤ b)

/-- Python tuple order on the accept-list sort keys. -/
def keyLeB (k₁ k₂ : Option String × Option Int) : Bool :=
  if k₁.1 = k₂.1 then optIntLeB k₁.2 k₂.2 else optStrLtB k₁.1 k₂.1

/-- The relation `sorted(..., key=...)` orders accept entries by. -/
def acceptKeyRel (support : Bool)
    (c₁ c₂ : ServiceAttachmentConsumerProjectLimit) : Prop :=
  keyLeB (GetSortKey support c₁) (GetSortKey support c₂) = true

instance (support : Bool) : DecidableRel (acceptKeyRel support) :=
  fun _ _ => inferInstanceAs (Decidable (_ = true))

/-- Python `sorted(lst, key=self._GetProjectOrNetworkOrEndpointBasedOnArg)`
(stable). -/
def sortAcceptList (support : Bool)
    (l : List ServiceAttachmentConsumerProjectLimit) :
    List ServiceAttachmentConsumerProjectLimit :=
  List.insertionSort (acceptKeyRel support) l

/-- The errors `_Modify` can let escape. -/
inductive UpdateError where
  | conflictingArguments
  | valueErr (e : AcceptListError)
deriving DecidableEq

/-- The builder state threaded through `_Modify`: the replacement copy,
the `is_updated` flag, and the `cleared_fields` accumulator. -/
structure MState where
  repl : ServiceAttachment
  upd : Bool
  cleared : List String
deriving DecidableEq

/-- `target_service` block: marks updated whenever specified, with no
comparison against the old value. -/
def stepTarget (a : Args) (s : MState) : MState :=
  match a.target_service with
  | none => s
  | some t => ⟨{s.repl with targetService := some t}, true, s.cleared⟩

/-- `description` block. -/
def stepDescription (a : Args) (old : ServiceAttachment) (s : MState) : MState :=
  match a.description with
  | none => s
  | some d =>
    if some d ≠ old.description then ⟨{s.repl with description := some d}, true, s.cleared⟩
    else s

/-- `connection_preference` block. -/
def stepConnectionPreference (a : Args) (old : ServiceAttachment) (s : MState) : MState :=
  match a.connection_preference with
  | none => s
  | some cp =>
    if GetConnectionPreference cp ≠ old.connectionPreference then
      ⟨{s.repl with connectionPreference := GetConnectionPreference cp}, true, s.cleared⟩
    else s

/-- `enable_proxy_protocol` block. -/
def stepEnableProxyProtocol (a : Args) (old : ServiceAttachment) (s : MState) : MState :=
  match a.enable_proxy_protocol with
  | none => s
  | some b =>
    if some b ≠ old.enableProxyProtocol then
      ⟨{s.repl with enableProxyProtocol := some b}, true, s.cleared⟩
    else s

/-- `nat_subnets` block: both sides sorted before comparison. -/
def stepNatSubnets (a : Args) (old : ServiceAttachment) (s : MState) : MState :=
  match a.nat_subnets with
  | none => s
  | some l =>
    match old.natSubnets with
    | none => ⟨{s.repl with natSubnets := some (pysortStr l)}, true, s.cleared⟩
    | some ol =>
      if pysortStr l ≠ pysortStr ol then
        ⟨{s.repl with natSubnets := some (pysortStr l)}, true, s.cleared⟩
      else s

/-- `consumer_reject_list` block: sorted comparison; an empty new list
appends the field name to `cleared_fields` unconditionally inside the
update branch. -/
def stepRejectList (a : Args) (old : ServiceAttachment) (s : MState) : MState :=
  match a.consumer_reject_list with
  | none => s
  | some l =>
    match old.consumerRejectLists with
    | none =>
      ⟨{s.repl with consumerRejectLists := some (pysortStr l)}, true,
        if pysortStr l = [] then s.cleared ++ ["consumerRejectLists"] else s.cleared⟩
    | some ol =>
      if pysortStr l ≠ pysortStr ol then
        ⟨{s.repl with consumerRejectLists := some (pysortStr l)}, true,
          if pysortStr l = [] then s.cleared ++ ["consumerRejectLists"] else s.cleared⟩
      else s

/-- `consumer_accept_list` block: normalize (mode-dependent), sort by the
canonical key, compare against the old list sorted by the same key. -/
def stepAcceptList (support : Bool) (a : Args) (old : ServiceAttachment) (s : MState) :
    Except UpdateError MState :=
  match a.consumer_accept_list with
  | none => .ok s
  | some dicts =>
    match (if support then GetConsumerAcceptListWithEndpointBasedSecurity dicts
           else GetConsumerAcceptList dicts) with
    | .error e => .error (.valueErr e)
    | .ok lst =>
      match old.consumerAcceptLists with
      | none =>
        .ok ⟨{s.repl with consumerAcceptLists := some (sortAcceptList support lst)}, true,
          if sortAcceptList support lst = [] then s.cleared ++ ["consumerAcceptLists"]
          else s.cleared⟩
      | some ol =>
        if sortAcceptList support lst ≠ sortAcceptList support ol then
          .ok ⟨{s.repl with consumerAcceptLists := some (sortAcceptList support lst)}, true,
            if sortAcceptList support lst = [] then s.cleared ++ ["consumerAcceptLists"]
            else s.cleared⟩
        else .ok s

/-- Remove-obsolete-entries block: conflicting-arguments check, then the
pruning pass.  Note the source assigns `is_updated = ...` here, replacing
(not OR-ing) any earlier update mark. -/
def stepObsolete (support : Bool) (a : Args) (s : MState) : Except UpdateError MState :=
  if support ∧ a.remove_obsolete_endpoint_accept_reject_entries then
    if a.consumer_accept_list.isSome ∨ a.consumer_reject_list.isSome then
      .error .conflictingArguments
    else
      .ok ⟨(RemoveObsoleteEndpointEntries s.repl s.cleared).1,
        (RemoveObsoleteEndpointEntries s.repl s.cleared).2.2,
        (RemoveObsoleteEndpointEntries s.repl s.cleared).2.1⟩
  else .ok s

/-- `reconcile_connections` block. -/
def stepReconcileConnections (a : Args) (old : ServiceAttachment) (s : MState) : MState :=
  match a.reconcile_connections with
  | none => s
  | some b =>
    if some b ≠ old.reconcileConnections then
      ⟨{s.repl with reconcileConnections := some b}, true, s.cleared⟩
    else s

/-- `propagated_connection_limit` block. -/
def stepPropagatedConnectionLimit (a : Args) (old : ServiceAttachment) (s : MState) : MState :=
  match a.propagated_connection_limit with
  | none => s
  | some n =>
    if some n ≠ old.propagatedConnectionLimit then
      ⟨{s.repl with propagatedConnectionLimit := some n}, true, s.cleared⟩
    else s

/-- `UpdateHelper._Modify`: start from a copy of the old resource, run the
field blocks in source order, and return `none` ("no change") when
`is_updated` ends up false, otherwise the replacement; the final
`cleared_fields` is returned alongside in either case (the Python list is
mutated in place for the caller). -/
def modifyPre (a : Args) (old : ServiceAttachment) (cleared₀ : List String) : MState :=
  stepRejectList a old (stepNatSubnets a old (stepEnableProxyProtocol a old
    (stepConnectionPreference a old (stepDescription a old
      (stepTarget a ⟨old, false, cleared₀⟩)))))

def modifyPost (a : Args) (old : ServiceAttachment) (s : MState) : MState :=
  stepPropagatedConnectionLimit a old (stepReconcileConnections a old s)

def Modify (support : Bool) (a : Args) (old : ServiceAttachment) (cleared₀ : List String) :
    Except UpdateError (Option ServiceAttachment × List String) :=
  (stepAcceptList support a old (modifyPre a old cleared₀)).bind fun s₇ =>
    (stepObsolete support a s₇).bind fun s₈ =>
      .ok (if (modifyPost a old s₈).upd then some (modifyPost a old s₈).repl else none,
        (modifyPost a old s₈).cleared)

/-- What `UpdateHelper.Run` does after fetching: the error propagates,
"no change" returns the fetched resource without a mutating request, and
otherwise a PATCH request with the replacement body and the cleared
fields is issued. -/
inductive RunOutcome where
  | raised (e : UpdateError)
  | noRequest (resource : ServiceAttachment)
  | patchRequest (body : ServiceAttachment) (clearedFields : List String)
deriving DecidableEq

/-- `UpdateHelper.Run`, from the fetched `old_resource` on. -/
def Run (support : Bool) (a : Args) (old : ServiceAttachment) : RunOutcome :=
  match Modify support a old [] with
  | .error e => .raised e
  | .ok (none, _) => .noRequest old
  | .ok (some repl, cleared) => .patchRequest repl cleared

/-! ### hooks.py: the api-key service-account name hook -/

/-- The `ApiKey` message part the hook touches. -/
structure ApiKey where
  serviceAccountName : Option String
deriving DecidableEq

/-- The request message the hook receives. -/
structure ApiKeyRequest where
  apiKey : Option ApiKey
deriving DecidableEq

/-- The hook's parsed arguments. -/
structure ApiKeyArgs where
  service_account : Option String
  project : Option String
  location : Option String
deriving DecidableEq

/-- `RequiredArgumentException`, carrying the flag it names. -/
inductive HookError where
  | requiredArgument (flag : String)
deriving DecidableEq

/-- `ConstructServiceAccountName`: the first component is the raised
error, if any (Python raises before touching the request, so the second
component is the request object as the caller sees it afterwards). -/
def ConstructServiceAccountName (a : ApiKeyArgs) (req : ApiKeyRequest) :
    Option HookError × ApiKeyRequest :=
  match a.service_account with
  | none => (none, req)
  | some saId =>
    if pyFalsy a.project then (some (.requiredArgument "--project"), req)
    else if pyFalsy a.location then (some (.requiredArgument "--location"), req)
    else
      let name := "projects/" ++ a.project.getD "" ++ "/locations/" ++
        a.location.getD "" ++ "/serviceAccounts/" ++ saId
      (none, {req with apiKey := some ⟨some name⟩})

end GcloudSdk

namespace GcloudSdk

/-! ### Helper lemmas: sorting -/

theorem sortAcceptList_perm (support : Bool) (l : List ServiceAttachmentConsumerProjectLimit) :
    (sortAcceptList support l).Perm l :=
  List.perm_insertionSort _ l

theorem sortAcceptList_eq_nil_iff (support : Bool)
    {l : List ServiceAttachmentConsumerProjectLimit} :
    sortAcceptList support l = [] ↔ l = [] := by
  constructor
  · intro h
    have hp := sortAcceptList_perm support l
    rw [h] at hp
    exact hp.symm.eq_nil
  · intro h; subst h; rfl

instance : IsTotal (String × Option String) (fun p q => strLeP p.1 q.1) :=
  ⟨fun a b => charsLe_total a.1.toList b.1.toList⟩

instance : IsTrans (String × Option String) (fun p q => strLeP p.1 q.1) :=
  ⟨fun _ _ _ h₁ h₂ => charsLe_trans h₁ h₂⟩

/-- The strict companion of the item order: key strictly below. -/
def itemLt (p q : String × Option String) : Prop := strLeP p.1 q.1 ∧ p.1 ≠ q.1

instance : IsAntisymm (String × Option String) itemLt :=
  ⟨fun _ _ h₁ h₂ => absurd (antisymm h₁.1 h₂.1) h₁.2⟩

/-- Dictionary items sorted by key are canonical: two associations with the
same members (and duplicate-free keys, as dictionaries guarantee) sort to
the same list. -/
theorem sortedItems_perm_nodup_eq {d₁ d₂ : List (String × Option String)}
    (h : d₁.Perm d₂) (hnd : (d₁.map Prod.fst).Nodup) :
    sortedItems d₁ = sortedItems d₂ := by
  have hp₁ := List.perm_insertionSort (fun p q : String × Option String => strLeP p.1 q.1) d₁
  have hp₂ := List.perm_insertionSort (fun p q : String × Option String => strLeP p.1 q.1) d₂
  have hperm : (sortedItems d₁).Perm (sortedItems d₂) := hp₁.trans (h.trans hp₂.symm)
  have hs₁ : List.Sorted (fun p q : String × Option String => strLeP p.1 q.1) (sortedItems d₁) :=
    List.sorted_insertionSort _ d₁
  have hs₂ : List.Sorted (fun p q : String × Option String => strLeP p.1 q.1) (sortedItems d₂) :=
    List.sorted_insertionSort _ d₂
  have hnd₁ : ((sortedItems d₁).map Prod.fst).Nodup := ((hp₁.map Prod.fst).nodup_iff).mpr hnd
  have hnd₂ : ((sortedItems d₂).map Prod.fst).Nodup :=
    ((hp₂.map Prod.fst).nodup_iff).mpr (((h.map Prod.fst).nodup_iff).mp hnd)
  have hlt₁ : List.Sorted itemLt (sortedItems d₁) :=
    (hs₁.and (List.pairwise_map.mp hnd₁)).imp (fun h => ⟨h.1, h.2⟩)
  have hlt₂ : List.Sorted itemLt (sortedItems d₂) :=
    (hs₂.and (List.pairwise_map.mp hnd₂)).imp (fun h => ⟨h.1, h.2⟩)
  exact List.eq_of_perm_of_sorted hperm hlt₁ hlt₂

/-! ### Claim theorems: accept-list normalizers and the api-key hook -/

/-- Claim C7: in the extended-form accept-list normalizer, per entry in
case order: a network-path identifier requires a truthy limit (else the
fatal error naming the network URL) and yields a network entry with the
parsed integer limit; otherwise an endpoint-path identifier yields an
endpoint entry with the limit exactly when one is given; otherwise a bare
project identifier requires a truthy limit (else the fatal error naming
the project id or number) and yields a project entry with the parsed
limit. -/
theorem acceptEntryEBS_classification_c7 (k : String) (v : Option String) :
    (pyIn "/networks/" k = true →
      (pyFalsy v = true → acceptEntryEBS (k, v) = .error (.connLimitRequiredForNetworkUrl k)) ∧
      (∀ s n, v = some s → pyFalsy v = false → pyToInt s = some n →
        acceptEntryEBS (k, v) = .ok ⟨none, some k, none, some n⟩)) ∧
    (pyIn "/networks/" k = false → pyIn "/forwardingRules/" k = true →
      (pyFalsy v = true → acceptEntryEBS (k, v) = .ok ⟨none, none, some k, none⟩) ∧
      (∀ s n, v = some s → pyFalsy v = false → pyToInt s = some n →
        acceptEntryEBS (k, v) = .ok ⟨none, none, some k, some n⟩)) ∧
    (pyIn "/networks/" k = false → pyIn "/forwardingRules/" k = false →
      (pyFalsy v = true →
        acceptEntryEBS (k, v) = .error (.connLimitRequiredForProjectIdOrNum k)) ∧
      (∀ s n, v = some s → pyFalsy v = false → pyToInt s = some n →
        acceptEntryEBS (k, v) = .ok ⟨some k, none, none, some n⟩)) := by
  refine ⟨fun hn => ⟨fun hv => ?_, fun s n hs hv hp => ?_⟩,
    fun hn hf => ⟨fun hv => ?_, fun s n hs hv hp => ?_⟩,
    fun hn hf => ⟨fun hv => ?_, fun s n hs hv hp => ?_⟩⟩ <;>
    simp_all [acceptEntryEBS, pyIntOfRaw, Except.map]

/-- Witness for C7 at concrete entries. -/
theorem acceptEntryEBS_classification_c7_witness :
    acceptEntryEBS ("p/networks/n", none) = .error (.connLimitRequiredForNetworkUrl "p/networks/n") ∧
    acceptEntryEBS ("p/networks/n", some "7") = .ok ⟨none, some "p/networks/n", none, some 7⟩ ∧
    acceptEntryEBS ("p/forwardingRules/e1", none) = .ok ⟨none, none, some "p/forwardingRules/e1", none⟩ ∧
    acceptEntryEBS ("p/forwardingRules/e1", some "5") = .ok ⟨none, none, some "p/forwardingRules/e1", some 5⟩ ∧
    acceptEntryEBS ("projects/p1", none) = .error (.connLimitRequiredForProjectIdOrNum "projects/p1") ∧
    acceptEntryEBS ("projects/p1", some "10") = .ok ⟨some "projects/p1", none, none, some 10⟩ := by
  refine ⟨((acceptEntryEBS_classification_c7 "p/networks/n" none).1 (by decide)).1 (by decide),
    ((acceptEntryEBS_classification_c7 "p/networks/n" (some "7")).1 (by decide)).2 "7" 7
      rfl (by decide) (by decide),
    ((acceptEntryEBS_classification_c7 "p/forwardingRules/e1" none).2.1 (by decide)
      (by decide)).1 (by decide),
    ((acceptEntryEBS_classification_c7 "p/forwardingRules/e1" (some "5")).2.1 (by decide)
      (by decide)).2 "5" 5 rfl (by decide) (by decide),
    ((acceptEntryEBS_classification_c7 "projects/p1" none).2.2 (by decide)
      (by decide)).1 (by decide),
    ((acceptEntryEBS_classification_c7 "projects/p1" (some "10")).2.2 (by decide)
      (by decide)).2 "10" 10 rfl (by decide) (by decide)⟩

/-- Claim C8: in the basic-form accept-list normalizer, per entry in case
order: a network-path identifier yields a network-limit entry, an
endpoint-path identifier raises the unsupported error, anything else
yields a project-limit entry; and each dictionary is iterated in sorted
key order, so re-associating a dictionary (same items, any order,
distinct keys) leaves the output unchanged. -/
theorem acceptEntryBasic_classification_c8 :
    (∀ k v s n, pyIn "/networks/" k = true → v = some s → pyToInt s = some n →
      acceptEntryBasic (k, v) = .ok ⟨none, some k, none, some n⟩) ∧
    (∀ k v, pyIn "/networks/" k = false → pyIn "/forwardingRules/" k = true →
      acceptEntryBasic (k, v) = .error .endpointUrlNotSupported) ∧
    (∀ k v s n, pyIn "/networks/" k = false → pyIn "/forwardingRules/" k = false →
      v = some s → pyToInt s = some n →
      acceptEntryBasic (k, v) = .ok ⟨some k, none, none, some n⟩) ∧
    (∀ pre post d₁ d₂, d₁.Perm d₂ → (d₁.map Prod.fst).Nodup →
      GetConsumerAcceptList (pre ++ d₁ :: post) = GetConsumerAcceptList (pre ++ d₂ :: post)) := by
  refine ⟨fun k v s n hn hs hp => ?_, fun k v hn hf => ?_, fun k v s n hn hf hs hp => ?_,
    fun pre post d₁ d₂ h hnd => ?_⟩
  · simp_all [acceptEntryBasic, pyIntOfRaw, Except.map]
  · simp_all [acceptEntryBasic]
  · simp_all [acceptEntryBasic, pyIntOfRaw, Except.map]
  · simp [GetConsumerAcceptList, sortedItems_perm_nodup_eq h hnd]

/-- Witness for C8 at concrete entries and a reordered dictionary. -/
theorem acceptEntryBasic_classification_c8_witness :
    acceptEntryBasic ("p/networks/n", some "3") = .ok ⟨none, some "p/networks/n", none, some 3⟩ ∧
    acceptEntryBasic ("p/forwardingRules/e1", some "3") = .error .endpointUrlNotSupported ∧
    acceptEntryBasic ("projects/p1", some "10") = .ok ⟨some "projects/p1", none, none, some 10⟩ ∧
    GetConsumerAcceptList [[("projects/p1", some "10"), ("projects/p2", some "20")]] =
      GetConsumerAcceptList [[("projects/p2", some "20"), ("projects/p1", some "10")]] := by
  refine ⟨acceptEntryBasic_classification_c8.1 "p/networks/n" (some "3") "3" 3
      (by decide) rfl (by decide),
    acceptEntryBasic_classification_c8.2.1 "p/forwardingRules/e1" (some "3")
      (by decide) (by decide),
    acceptEntryBasic_classification_c8.2.2.1 "projects/p1" (some "10") "10" 10
      (by decide) (by decide) rfl (by decide),
    acceptEntryBasic_classification_c8.2.2.2 [] []
      [("projects/p1", some "10"), ("projects/p2", some "20")]
      [("projects/p2", some "20"), ("projects/p1", some "10")] (by decide) (by decide)⟩

/-- Claim C9: with the service-account flag specified, a falsy project
raises the required-argument error naming `--project` with the request
untouched; with a truthy project but falsy location, the error names
`--location` with the request untouched; with both present the hook sets
`apiKey.serviceAccountName` to
`projects/P/locations/L/serviceAccounts/ID`. -/
theorem constructServiceAccountName_c9 (a : ApiKeyArgs) (req : ApiKeyRequest)
    (saId : String) (hsa : a.service_account = some saId) :
    (pyFalsy a.project = true →
      ConstructServiceAccountName a req = (some (.requiredArgument "--project"), req)) ∧
    (pyFalsy a.project = false → pyFalsy a.location = true →
      ConstructServiceAccountName a req = (some (.requiredArgument "--location"), req)) ∧
    (∀ p l, a.project = some p → a.location = some l →
      pyFalsy a.project = false → pyFalsy a.location = false →
      ConstructServiceAccountName a req =
        (none, {req with apiKey := some ⟨some ("projects/" ++ p ++ "/locations/" ++ l ++
          "/serviceAccounts/" ++ saId)⟩})) := by
  refine ⟨fun hp => ?_, fun hp hl => ?_, fun p l hp hl hpf hlf => ?_⟩ <;>
    simp_all [ConstructServiceAccountName]

/-- Witness for C9 at concrete arguments. -/
theorem constructServiceAccountName_c9_witness :
    ConstructServiceAccountName ⟨some "sa", none, some "l"⟩ ⟨none⟩ =
      (some (.requiredArgument "--project"), ⟨none⟩) ∧
    ConstructServiceAccountName ⟨some "sa", some "p", some ""⟩ ⟨none⟩ =
      (some (.requiredArgument "--location"), ⟨none⟩) ∧
    ConstructServiceAccountName ⟨some "sa", some "p", some "l"⟩ ⟨none⟩ =
      (none, ⟨some ⟨some "projects/p/locations/l/serviceAccounts/sa"⟩⟩) := by
  refine ⟨(constructServiceAccountName_c9 ⟨some "sa", none, some "l"⟩ ⟨none⟩ "sa" rfl).1
      (by decide),
    (constructServiceAccountName_c9 ⟨some "sa", some "p", some ""⟩ ⟨none⟩ "sa" rfl).2.1
      (by decide) (by decide),
    (constructServiceAccountName_c9 ⟨some "sa", some "p", some "l"⟩ ⟨none⟩ "sa" rfl).2.2
      "p" "l" rfl rfl (by decide) (by decide)⟩

/-- Claim C10: when an identifier carries both the network-path and the
endpoint-path marker, the network branch wins in both normalizers: the
basic form never raises the endpoint-unsupported error for it and emits a
network entry, and the extended form applies the network rule (limit
required; network entry when given). -/
theorem acceptEntry_both_markers_c10 (k : String) (v : Option String)
    (hn : pyIn "/networks/" k = true) (hf : pyIn "/forwardingRules/" k = true) :
    acceptEntryBasic (k, v) ≠ .error .endpointUrlNotSupported ∧
    (∀ s n, v = some s → pyToInt s = some n →
      acceptEntryBasic (k, v) = .ok ⟨none, some k, none, some n⟩) ∧
    (pyFalsy v = true → acceptEntryEBS (k, v) = .error (.connLimitRequiredForNetworkUrl k)) ∧
    (∀ s n, v = some s → pyFalsy v = false → pyToInt s = some n →
      acceptEntryEBS (k, v) = .ok ⟨none, some k, none, some n⟩) := by
  refine ⟨?_, fun s n hs hp => ?_, fun hv => ?_, fun s n hs hv hp => ?_⟩
  · cases hv : v with
    | none => simp [acceptEntryBasic, pyIntOfRaw, hn, Except.map]
    | some s =>
      cases hp : pyToInt s <;> simp [acceptEntryBasic, pyIntOfRaw, hn, hp, Except.map]
  · simp_all [acceptEntryBasic, pyIntOfRaw, Except.map]
  · simp_all [acceptEntryEBS]
  · simp_all [acceptEntryEBS, pyIntOfRaw, Except.map]

/-- Witness for C10 on an identifier containing both markers. -/
theorem acceptEntry_both_markers_c10_witness :
    acceptEntryBasic ("v/networks/n/forwardingRules/f", some "2") ≠
      .error .endpointUrlNotSupported ∧
    acceptEntryBasic ("v/networks/n/forwardingRules/f", some "2") =
      .ok ⟨none, some "v/networks/n/forwardingRules/f", none, some 2⟩ ∧
    acceptEntryEBS ("v/networks/n/forwardingRules/f", none) =
      .error (.connLimitRequiredForNetworkUrl "v/networks/n/forwardingRules/f") := by
  refine ⟨(acceptEntry_both_markers_c10 "v/networks/n/forwardingRules/f" (some "2")
      (by decide) (by decide)).1,
    (acceptEntry_both_markers_c10 "v/networks/n/forwardingRules/f" (some "2")
      (by decide) (by decide)).2.1 "2" 2 rfl (by decide),
    (acceptEntry_both_markers_c10 "v/networks/n/forwardingRules/f" none
      (by decide) (by decide)).2.2.1 (by decide)⟩

end GcloudSdk

namespace GcloudSdk

/-! ### Concrete instances used by the closed checks below -/

/-- A sample fetched snapshot. -/
def sampleOld : ServiceAttachment :=
  ⟨some "t", some "old", some .ACCEPT_AUTOMATIC, some false, some ["s"], some ["b", "a"],
    some [], some [], some false, some 5⟩

/-- Overrides specifying only a changed description. -/
def descArgs : Args := ⟨none, some "new", none, none, none, none, none, false, none, none⟩

/-- The replacement the builder produces for `descArgs` over `sampleOld`. -/
def descRepl : ServiceAttachment := {sampleOld with description := some "new"}

/-! ### Frame lemmas for the patch builder -/


theorem stepTarget_repl (a : Args) (s : MState) :
    ∃ v, (stepTarget a s).repl = {s.repl with targetService := v} := by
  unfold stepTarget
  split
  · exact ⟨_, rfl⟩
  · exact ⟨_, rfl⟩

theorem stepDescription_repl (a : Args) (old : ServiceAttachment) (s : MState) :
    ∃ v, (stepDescription a old s).repl = {s.repl with description := v} := by
  unfold stepDescription
  split
  · exact ⟨_, rfl⟩
  · rename_i d heq
    by_cases hc : some d ≠ old.description
    · rw [if_pos hc]
      exact ⟨_, rfl⟩
    · rw [if_neg hc]
      exact ⟨_, rfl⟩

theorem stepConnectionPreference_repl (a : Args) (old : ServiceAttachment) (s : MState) :
    ∃ v, (stepConnectionPreference a old s).repl = {s.repl with connectionPreference := v} := by
  unfold stepConnectionPreference
  split
  · exact ⟨_, rfl⟩
  · rename_i cp heq
    by_cases hc : GetConnectionPreference cp ≠ old.connectionPreference
    · rw [if_pos hc]
      exact ⟨_, rfl⟩
    · rw [if_neg hc]
      exact ⟨_, rfl⟩

theorem stepEnableProxyProtocol_repl (a : Args) (old : ServiceAttachment) (s : MState) :
    ∃ v, (stepEnableProxyProtocol a old s).repl = {s.repl with enableProxyProtocol := v} := by
  unfold stepEnableProxyProtocol
  split
  · exact ⟨_, rfl⟩
  · rename_i b heq
    by_cases hc : some b ≠ old.enableProxyProtocol
    · rw [if_pos hc]
      exact ⟨_, rfl⟩
    · rw [if_neg hc]
      exact ⟨_, rfl⟩

theorem stepNatSubnets_repl (a : Args) (old : ServiceAttachment) (s : MState) :
    ∃ v, (stepNatSubnets a old s).repl = {s.repl with natSubnets := v} := by
  unfold stepNatSubnets
  split
  · exact ⟨_, rfl⟩
  · rename_i l heq
    split
    · exact ⟨_, rfl⟩
    · rename_i m heq₂
      by_cases hc : pysortStr l ≠ pysortStr m
      · rw [if_pos hc]
        exact ⟨_, rfl⟩
      · rw [if_neg hc]
        exact ⟨_, rfl⟩

theorem stepRejectList_repl (a : Args) (old : ServiceAttachment) (s : MState) :
    ∃ v, (stepRejectList a old s).repl = {s.repl with consumerRejectLists := v} := by
  unfold stepRejectList
  split
  · exact ⟨_, rfl⟩
  · rename_i l heq
    split
    · exact ⟨_, rfl⟩
    · rename_i m heq₂
      by_cases hc : pysortStr l ≠ pysortStr m
      · rw [if_pos hc]
        exact ⟨_, rfl⟩
      · rw [if_neg hc]
        exact ⟨_, rfl⟩

theorem stepAcceptList_ok_repl {support : Bool} {a : Args} {old : ServiceAttachment}
    {s s₇ : MState} (h : stepAcceptList support a old s = .ok s₇) :
    ∃ v, s₇.repl = {s.repl with consumerAcceptLists := v} := by
  unfold stepAcceptList at h
  split at h
  · cases h
    exact ⟨_, rfl⟩
  · split at h
    · cases h
    · split at h
      · cases h
        exact ⟨_, rfl⟩
      · split at h
        · cases h
          exact ⟨_, rfl⟩
        · cases h
          exact ⟨_, rfl⟩

theorem cleanAccepted_repl (sa : ServiceAttachment) (ids cleared : List String) :
    ∃ v, (CleanObsoleteAcceptedEndpointUrls sa ids cleared).1 =
      {sa with consumerAcceptLists := v} := by
  unfold CleanObsoleteAcceptedEndpointUrls
  split
  · exact ⟨_, rfl⟩
  · rename_i l hl
    by_cases h1 : l = []
    · rw [if_pos h1]
      exact ⟨_, rfl⟩
    · rw [if_neg h1]
      by_cases h2 : (l.filter (acceptEntryKeep ids)).length = l.length
      · rw [if_pos h2]
        exact ⟨_, rfl⟩
      · rw [if_neg h2]
        by_cases h3 : l.filter (acceptEntryKeep ids) = [] ∧ "consumerAcceptLists" ∉ cleared
        · rw [if_pos h3]
          exact ⟨_, rfl⟩
        · rw [if_neg h3]
          by_cases h4 : l.filter (acceptEntryKeep ids) ≠ [] ∧ "consumerAcceptLists" ∈ cleared
          · rw [if_pos h4]
            exact ⟨_, rfl⟩
          · rw [if_neg h4]
            exact ⟨_, rfl⟩

theorem cleanRejected_repl (sa : ServiceAttachment) (ids cleared : List String) :
    ∃ v, (CleanObsoleteRejectedEndpointUrls sa ids cleared).1 =
      {sa with consumerRejectLists := v} := by
  unfold CleanObsoleteRejectedEndpointUrls
  split
  · exact ⟨_, rfl⟩
  · rename_i l hl
    by_cases h1 : l = []
    · rw [if_pos h1]
      exact ⟨_, rfl⟩
    · rw [if_neg h1]
      by_cases h2 : (l.filter (rejectEntryKeep ids)).length = l.length
      · rw [if_pos h2]
        exact ⟨_, rfl⟩
      · rw [if_neg h2]
        by_cases h3 : l.filter (rejectEntryKeep ids) = [] ∧ "consumerRejectLists" ∉ cleared
        · rw [if_pos h3]
          exact ⟨_, rfl⟩
        · rw [if_neg h3]
          by_cases h4 : l.filter (rejectEntryKeep ids) ≠ [] ∧ "consumerRejectLists" ∈ cleared
          · rw [if_pos h4]
            exact ⟨_, rfl⟩
          · rw [if_neg h4]
            exact ⟨_, rfl⟩

theorem removeObsolete_repl (sa : ServiceAttachment) (cleared : List String) :
    ∃ va vr, (RemoveObsoleteEndpointEntries sa cleared).1 =
      {sa with consumerAcceptLists := va, consumerRejectLists := vr} := by
  unfold RemoveObsoleteEndpointEntries
  obtain ⟨va, ha⟩ := cleanAccepted_repl sa (GetConnectedEndpointIds sa) cleared
  obtain ⟨vr, hr⟩ := cleanRejected_repl
    (CleanObsoleteAcceptedEndpointUrls sa (GetConnectedEndpointIds sa) cleared).1
    (GetConnectedEndpointIds sa)
    (CleanObsoleteAcceptedEndpointUrls sa (GetConnectedEndpointIds sa) cleared).2.1
  refine ⟨va, vr, ?_⟩
  rw [hr, ha]

theorem stepObsolete_ok_repl {support : Bool} {a : Args} {s s₈ : MState}
    (h : stepObsolete support a s = .ok s₈) :
    ∃ va vr, s₈.repl = {s.repl with consumerAcceptLists := va, consumerRejectLists := vr} := by
  unfold stepObsolete at h
  split at h
  · split at h
    · cases h
    · cases h
      exact removeObsolete_repl s.repl s.cleared
  · cases h
    exact ⟨_, _, rfl⟩

theorem stepReconcileConnections_repl (a : Args) (old : ServiceAttachment) (s : MState) :
    ∃ v, (stepReconcileConnections a old s).repl = {s.repl with reconcileConnections := v} := by
  unfold stepReconcileConnections
  split
  · exact ⟨_, rfl⟩
  · rename_i b heq
    by_cases hc : some b ≠ old.reconcileConnections
    · rw [if_pos hc]
      exact ⟨_, rfl⟩
    · rw [if_neg hc]
      exact ⟨_, rfl⟩

theorem stepPropagatedConnectionLimit_repl (a : Args) (old : ServiceAttachment) (s : MState) :
    ∃ v, (stepPropagatedConnectionLimit a old s).repl =
      {s.repl with propagatedConnectionLimit := v} := by
  unfold stepPropagatedConnectionLimit
  split
  · exact ⟨_, rfl⟩
  · rename_i n heq
    by_cases hc : some n ≠ old.propagatedConnectionLimit
    · rw [if_pos hc]
      exact ⟨_, rfl⟩
    · rw [if_neg hc]
      exact ⟨_, rfl⟩

theorem stepTarget_skip {a : Args} (s : MState) (h : a.target_service = none) :
    stepTarget a s = s := by
  unfold stepTarget; rw [h]

theorem stepDescription_skip {a : Args} (old : ServiceAttachment) (s : MState)
    (h : a.description = none) : stepDescription a old s = s := by
  unfold stepDescription; rw [h]

theorem stepConnectionPreference_skip {a : Args} (old : ServiceAttachment) (s : MState)
    (h : a.connection_preference = none) : stepConnectionPreference a old s = s := by
  unfold stepConnectionPreference; rw [h]

theorem stepEnableProxyProtocol_skip {a : Args} (old : ServiceAttachment) (s : MState)
    (h : a.enable_proxy_protocol = none) : stepEnableProxyProtocol a old s = s := by
  unfold stepEnableProxyProtocol; rw [h]

theorem stepNatSubnets_skip {a : Args} (old : ServiceAttachment) (s : MState)
    (h : a.nat_subnets = none) : stepNatSubnets a old s = s := by
  unfold stepNatSubnets; rw [h]

theorem stepRejectList_skip {a : Args} (old : ServiceAttachment) (s : MState)
    (h : a.consumer_reject_list = none) : stepRejectList a old s = s := by
  unfold stepRejectList; rw [h]

theorem stepAcceptList_skip (support : Bool) {a : Args} (old : ServiceAttachment) (s : MState)
    (h : a.consumer_accept_list = none) : stepAcceptList support a old s = .ok s := by
  unfold stepAcceptList; rw [h]

theorem stepObsolete_skip (support : Bool) {a : Args} (s : MState)
    (h : ¬(support = true ∧ a.remove_obsolete_endpoint_accept_reject_entries = true)) :
    stepObsolete support a s = .ok s := by
  unfold stepObsolete
  split
  · rename_i hc
    exact absurd hc h
  · rfl

theorem stepReconcileConnections_skip {a : Args} (old : ServiceAttachment) (s : MState)
    (h : a.reconcile_connections = none) : stepReconcileConnections a old s = s := by
  unfold stepReconcileConnections; rw [h]

theorem stepPropagatedConnectionLimit_skip {a : Args} (old : ServiceAttachment) (s : MState)
    (h : a.propagated_connection_limit = none) :
    stepPropagatedConnectionLimit a old s = s := by
  unfold stepPropagatedConnectionLimit; rw [h]

/-- Claim C3: the patch builder starts from a (deep) copy of the fetched
snapshot and mutates only the fields that are overridden (or, for the two
consumer lists, touched by the obsolete-entry pruning pass): every field
whose override is unspecified is identical to the old snapshot's field in
the returned replacement, and `connectedEndpoints` is never modified.  The
original snapshot is a value the builder never writes to (the embedding is
pure; the Python code mutates only the `CopyProtoMessage` copy). -/
theorem modify_c3_frame (support : Bool) (a : Args) (old : ServiceAttachment)
    (repl : ServiceAttachment) (cl : List String)
    (h : Modify support a old [] = .ok (some repl, cl)) :
    (a.target_service = none → repl.targetService = old.targetService) ∧
    (a.description = none → repl.description = old.description) ∧
    (a.connection_preference = none → repl.connectionPreference = old.connectionPreference) ∧
    (a.enable_proxy_protocol = none → repl.enableProxyProtocol = old.enableProxyProtocol) ∧
    (a.nat_subnets = none → repl.natSubnets = old.natSubnets) ∧
    (a.consumer_reject_list = none →
      ¬(support = true ∧ a.remove_obsolete_endpoint_accept_reject_entries = true) →
      repl.consumerRejectLists = old.consumerRejectLists) ∧
    (a.consumer_accept_list = none →
      ¬(support = true ∧ a.remove_obsolete_endpoint_accept_reject_entries = true) →
      repl.consumerAcceptLists = old.consumerAcceptLists) ∧
    (a.reconcile_connections = none → repl.reconcileConnections = old.reconcileConnections) ∧
    (a.propagated_connection_limit = none →
      repl.propagatedConnectionLimit = old.propagatedConnectionLimit) ∧
    repl.connectedEndpoints = old.connectedEndpoints := by
  unfold Modify at h
  cases hacc : stepAcceptList support a old (modifyPre a old []) with
  | error e => rw [hacc] at h; simp [Except.bind] at h
  | ok s₇ =>
    rw [hacc] at h
    simp only [Except.bind] at h
    cases hobs : stepObsolete support a s₇ with
    | error e => rw [hobs] at h; simp [Except.bind] at h
    | ok s₈ =>
      rw [hobs] at h
      simp only [Except.bind] at h
      cases hupd : (modifyPost a old s₈).upd with
      | false => rw [hupd] at h; simp at h
      | true =>
        rw [hupd] at h
        simp only [if_pos] at h
        have hrepl : repl = (modifyPost a old s₈).repl := by
          have := h
          simp at this
          exact this.1.symm
        subst hrepl
        obtain ⟨v₁, e₁⟩ := stepTarget_repl a ⟨old, false, []⟩
        obtain ⟨v₂, e₂⟩ := stepDescription_repl a old (stepTarget a ⟨old, false, []⟩)
        obtain ⟨v₃, e₃⟩ := stepConnectionPreference_repl a old
          (stepDescription a old (stepTarget a ⟨old, false, []⟩))
        obtain ⟨v₄, e₄⟩ := stepEnableProxyProtocol_repl a old
          (stepConnectionPreference a old (stepDescription a old (stepTarget a ⟨old, false, []⟩)))
        obtain ⟨v₅, e₅⟩ := stepNatSubnets_repl a old
          (stepEnableProxyProtocol a old (stepConnectionPreference a old
            (stepDescription a old (stepTarget a ⟨old, false, []⟩))))
        obtain ⟨v₆, e₆⟩ := stepRejectList_repl a old
          (stepNatSubnets a old (stepEnableProxyProtocol a old (stepConnectionPreference a old
            (stepDescription a old (stepTarget a ⟨old, false, []⟩)))))
        obtain ⟨v₇, e₇⟩ := stepAcceptList_ok_repl hacc
        obtain ⟨va, vr, e₈⟩ := stepObsolete_ok_repl hobs
        obtain ⟨v₉, e₉⟩ := stepReconcileConnections_repl a old s₈
        obtain ⟨v₁₀, e₁₀⟩ := stepPropagatedConnectionLimit_repl a old
          (stepReconcileConnections a old s₈)
        have hpre : modifyPre a old [] =
          stepRejectList a old (stepNatSubnets a old (stepEnableProxyProtocol a old
            (stepConnectionPreference a old (stepDescription a old
              (stepTarget a ⟨old, false, []⟩))))) := rfl
        rw [hpre] at e₇
        refine ⟨?_, ?_, ?_, ?_, ?_, ?_, ?_, ?_, ?_, ?_⟩
        · intro hn
          rw [stepTarget_skip _ hn] at e₁ e₂ e₃ e₄ e₅ e₆ e₇
          simp [modifyPost, e₁₀, e₉, e₈, e₇, e₆, e₅, e₄, e₃, e₂]
        · intro hn
          rw [stepDescription_skip _ _ hn] at e₂ e₃ e₄ e₅ e₆ e₇
          simp [modifyPost, e₁₀, e₉, e₈, e₇, e₆, e₅, e₄, e₃, e₁]
        · intro hn
          rw [stepConnectionPreference_skip _ _ hn] at e₃ e₄ e₅ e₆ e₇
          simp [modifyPost, e₁₀, e₉, e₈, e₇, e₆, e₅, e₄, e₂, e₁]
        · intro hn
          rw [stepEnableProxyProtocol_skip _ _ hn] at e₄ e₅ e₆ e₇
          simp [modifyPost, e₁₀, e₉, e₈, e₇, e₆, e₅, e₃, e₂, e₁]
        · intro hn
          rw [stepNatSubnets_skip _ _ hn] at e₅ e₆ e₇
          simp [modifyPost, e₁₀, e₉, e₈, e₇, e₆, e₄, e₃, e₂, e₁]
        · intro hn hno
          rw [stepRejectList_skip _ _ hn] at e₇
          have hs₈ : s₈ = s₇ := by
            have hsk := stepObsolete_skip support s₇ hno
            rw [hsk] at hobs
            cases hobs; rfl
          subst hs₈
          simp [modifyPost, e₁₀, e₉, e₇, e₅, e₄, e₃, e₂, e₁]
        · intro hn hno
          have hs₇ : s₇ = modifyPre a old [] := by
            have hsk := stepAcceptList_skip support old (modifyPre a old []) hn
            rw [hsk] at hacc
            cases hacc; rfl
          have hs₈ : s₈ = s₇ := by
            have hsk := stepObsolete_skip support s₇ hno
            rw [hsk] at hobs
            cases hobs; rfl
          subst hs₈
          simp only [modifyPost, e₁₀, e₉]
          rw [hs₇]
          rw [hpre]
          simp [e₆, e₅, e₄, e₃, e₂, e₁]
        · intro hn
          rw [stepReconcileConnections_skip _ _ hn] at e₁₀
          simp only [modifyPost]
          rw [stepReconcileConnections_skip _ _ hn]
          simp [e₁₀, e₈, e₇, e₆, e₅, e₄, e₃, e₂, e₁]
        · intro hn
          simp only [modifyPost]
          rw [stepPropagatedConnectionLimit_skip _ _ hn]
          simp [e₉, e₈, e₇, e₆, e₅, e₄, e₃, e₂, e₁]
        · simp [modifyPost, e₁₀, e₉, e₈, e₇, e₆, e₅, e₄, e₃, e₂, e₁]


/-- Witness for C3: a description-only override leaves every other field
of the replacement identical to the snapshot. -/
theorem modify_c3_frame_witness :
    Modify false descArgs sampleOld [] = .ok (some descRepl, []) ∧
    descRepl.targetService = sampleOld.targetService ∧
    descRepl.natSubnets = sampleOld.natSubnets ∧
    descRepl.consumerRejectLists = sampleOld.consumerRejectLists ∧
    descRepl.connectedEndpoints = sampleOld.connectedEndpoints := by
  have h := modify_c3_frame false descArgs sampleOld descRepl [] (by decide)
  exact ⟨by decide, h.1 rfl, h.2.2.2.2.1 rfl, h.2.2.2.2.2.1 rfl (by simp [descArgs]),
    h.2.2.2.2.2.2.2.2.2⟩

end GcloudSdk


namespace GcloudSdk

/-! C2 helpers: a specified override whose computed value matches the old
value (per the code's comparison) leaves the state untouched. -/

theorem stepDescription_same {a : Args} (old : ServiceAttachment) (s : MState)
    {d : String} (hd : a.description = some d) (he : some d = old.description) :
    stepDescription a old s = s := by
  simp only [stepDescription, hd]
  rw [if_neg (fun hne => hne he)]

theorem stepConnectionPreference_same {a : Args} (old : ServiceAttachment) (s : MState)
    {cp : String} (hd : a.connection_preference = some cp)
    (he : GetConnectionPreference cp = old.connectionPreference) :
    stepConnectionPreference a old s = s := by
  simp only [stepConnectionPreference, hd]
  rw [if_neg (fun hne => hne he)]

theorem stepEnableProxyProtocol_same {a : Args} (old : ServiceAttachment) (s : MState)
    {b : Bool} (hd : a.enable_proxy_protocol = some b) (he : some b = old.enableProxyProtocol) :
    stepEnableProxyProtocol a old s = s := by
  simp only [stepEnableProxyProtocol, hd]
  rw [if_neg (fun hne => hne he)]

theorem stepNatSubnets_same {a : Args} (old : ServiceAttachment) (s : MState)
    {l m : List String} (hd : a.nat_subnets = some l) (hold : old.natSubnets = some m)
    (he : l.Perm m) : stepNatSubnets a old s = s := by
  simp only [stepNatSubnets, hd, hold]
  rw [if_neg (fun hne => hne (pysortStr_perm_eq he))]

theorem stepRejectList_same {a : Args} (old : ServiceAttachment) (s : MState)
    {l m : List String} (hd : a.consumer_reject_list = some l)
    (hold : old.consumerRejectLists = some m) (he : l.Perm m) :
    stepRejectList a old s = s := by
  simp only [stepRejectList, hd, hold]
  rw [if_neg (fun hne => hne (pysortStr_perm_eq he))]

theorem stepAcceptList_same (support : Bool) {a : Args} (old : ServiceAttachment) (s : MState)
    {dicts : List (List (String × Option String))}
    {lst m : List ServiceAttachmentConsumerProjectLimit}
    (hd : a.consumer_accept_list = some dicts)
    (hres : (if support then GetConsumerAcceptListWithEndpointBasedSecurity dicts
      else GetConsumerAcceptList dicts) = .ok lst)
    (hold : old.consumerAcceptLists = some m)
    (he : sortAcceptList support lst = sortAcceptList support m) :
    stepAcceptList support a old s = .ok s := by
  simp only [stepAcceptList, hd, hres, hold]
  rw [if_neg (fun hne => hne he)]

theorem stepReconcileConnections_same {a : Args} (old : ServiceAttachment) (s : MState)
    {b : Bool} (hd : a.reconcile_connections = some b)
    (he : some b = old.reconcileConnections) : stepReconcileConnections a old s = s := by
  simp only [stepReconcileConnections, hd]
  rw [if_neg (fun hne => hne he)]

theorem stepPropagatedConnectionLimit_same {a : Args} (old : ServiceAttachment) (s : MState)
    {n : Int} (hd : a.propagated_connection_limit = some n)
    (he : some n = old.propagatedConnectionLimit) :
    stepPropagatedConnectionLimit a old s = s := by
  simp only [stepPropagatedConnectionLimit, hd]
  rw [if_neg (fun hne => hne he)]

theorem stepTarget_marks_updated {a : Args} (s : MState) {t : String}
    (ht : a.target_service = some t) : (stepTarget a s).upd = true := by
  simp [stepTarget, ht]

theorem modify_reject_perm_noop (l m : List String) (old : ServiceAttachment)
    (hperm : l.Perm m) (hold : old.consumerRejectLists = some m) :
    Modify false ⟨none, none, none, none, none, some l, none, false, none, none⟩ old [] =
      .ok (none, []) := by
  unfold Modify modifyPre
  rw [stepTarget_skip _ rfl, stepDescription_skip _ _ rfl, stepConnectionPreference_skip _ _ rfl,
    stepEnableProxyProtocol_skip _ _ rfl, stepNatSubnets_skip _ _ rfl,
    stepRejectList_same _ _ rfl hold hperm,
    stepAcceptList_skip false _ _ rfl]
  simp only [Except.bind]
  rw [stepObsolete_skip false _ (by simp)]
  simp only [Except.bind, modifyPost]
  rw [stepReconcileConnections_skip _ _ rfl, stepPropagatedConnectionLimit_skip _ _ rfl]
  rfl

/-! C6 helpers -/

theorem stepRejectList_empty_update {a : Args} (old : ServiceAttachment) (s : MState)
    (hd : a.consumer_reject_list = some [])
    (hold : old.consumerRejectLists = none ∨
      ∃ m, old.consumerRejectLists = some m ∧ m ≠ []) :
    stepRejectList a old s =
      ⟨{s.repl with consumerRejectLists := some []}, true,
        s.cleared ++ ["consumerRejectLists"]⟩ := by
  rcases hold with h | ⟨m, hm, hne⟩
  · simp only [stepRejectList, hd, h]
    rfl
  · simp only [stepRejectList, hd, hm]
    rw [if_pos (fun heq => hne (pysortStr_eq_nil_iff.mp heq.symm))]
    rfl

theorem stepAcceptList_empty_update (support : Bool) {a : Args} (old : ServiceAttachment)
    (s : MState) {dicts : List (List (String × Option String))}
    (hd : a.consumer_accept_list = some dicts)
    (hres : (if support then GetConsumerAcceptListWithEndpointBasedSecurity dicts
      else GetConsumerAcceptList dicts) = .ok [])
    (hold : old.consumerAcceptLists = none ∨
      ∃ m, old.consumerAcceptLists = some m ∧ m ≠ []) :
    stepAcceptList support a old s =
      .ok ⟨{s.repl with consumerAcceptLists := some []}, true,
        s.cleared ++ ["consumerAcceptLists"]⟩ := by
  rcases hold with h | ⟨m, hm, hne⟩
  · simp only [stepAcceptList, hd, hres, h]
    rfl
  · simp only [stepAcceptList, hd, hres, hm]
    rw [if_pos (fun heq => hne ((sortAcceptList_eq_nil_iff support).mp heq.symm))]
    rfl

theorem stepRejectList_empty_noop {a : Args} (old : ServiceAttachment) (s : MState)
    (hd : a.consumer_reject_list = some [])
    (hold : old.consumerRejectLists = some []) : stepRejectList a old s = s := by
  simp only [stepRejectList, hd, hold]
  rw [if_neg (fun hne => hne rfl)]

theorem stepAcceptList_empty_noop (support : Bool) {a : Args} (old : ServiceAttachment)
    (s : MState) {dicts : List (List (String × Option String))}
    (hd : a.consumer_accept_list = some dicts)
    (hres : (if support then GetConsumerAcceptListWithEndpointBasedSecurity dicts
      else GetConsumerAcceptList dicts) = .ok [])
    (hold : old.consumerAcceptLists = some []) :
    stepAcceptList support a old s = .ok s := by
  simp only [stepAcceptList, hd, hres, hold]
  rw [if_neg (fun hne => hne rfl)]

end GcloudSdk

namespace GcloudSdk

/-! C5 amended -/

theorem stepAcceptList_ok_of_wellformed (support : Bool) {a : Args}
    (old : ServiceAttachment) (s : MState)
    (hok : ∀ dicts, a.consumer_accept_list = some dicts →
      ∃ lst, (if support then GetConsumerAcceptListWithEndpointBasedSecurity dicts
        else GetConsumerAcceptList dicts) = .ok lst) :
    ∃ s₂, stepAcceptList support a old s = .ok s₂ := by
  unfold stepAcceptList
  split
  · exact ⟨s, rfl⟩
  · rename_i dicts hd
    split
    · rename_i e heq
      obtain ⟨lst, hl⟩ := hok dicts hd
      rw [hl] at heq
      cases heq
    · rename_i lst heq
      split
      · exact ⟨_, rfl⟩
      · rename_i ol hol
        by_cases hc : sortAcceptList support lst ≠ sortAcceptList support ol
        · rw [if_pos hc]
          exact ⟨_, rfl⟩
        · rw [if_neg hc]
          exact ⟨s, rfl⟩

theorem modify_c5_conflict_helper (a : Args) (old : ServiceAttachment)
    (hr : a.remove_obsolete_endpoint_accept_reject_entries = true)
    (hspec : a.consumer_accept_list.isSome = true ∨ a.consumer_reject_list.isSome = true)
    (hok : ∀ dicts, a.consumer_accept_list = some dicts →
      ∃ lst, GetConsumerAcceptListWithEndpointBasedSecurity dicts = .ok lst) :
    Modify true a old [] = .error .conflictingArguments ∧
    Run true a old = .raised .conflictingArguments := by
  have hok₂ : ∀ dicts, a.consumer_accept_list = some dicts →
      ∃ lst, (if true then GetConsumerAcceptListWithEndpointBasedSecurity dicts
        else GetConsumerAcceptList dicts) = .ok lst := by
    intro dicts hd
    obtain ⟨lst, hl⟩ := hok dicts hd
    exact ⟨lst, by rw [if_pos rfl]; exact hl⟩
  have hM : Modify true a old [] = .error .conflictingArguments := by
    unfold Modify
    obtain ⟨s₂, hacc⟩ := stepAcceptList_ok_of_wellformed true old (modifyPre a old []) hok₂
    rw [hacc]
    simp only [Except.bind]
    unfold stepObsolete
    rw [if_pos ⟨rfl, hr⟩]
    rw [if_pos (by rcases hspec with h | h; exacts [Or.inl h, Or.inr h])]
  exact ⟨hM, by unfold Run; rw [hM]⟩

/-! C4 helpers -/

theorem cleanAccepted_spec (sa : ServiceAttachment) (ids cleared : List String)
    (l : List ServiceAttachmentConsumerProjectLimit)
    (hl : sa.consumerAcceptLists = some l) (hne : l ≠ []) :
    (CleanObsoleteAcceptedEndpointUrls sa ids cleared).1 =
      {sa with consumerAcceptLists := some (l.filter (acceptEntryKeep ids))} ∧
    ((CleanObsoleteAcceptedEndpointUrls sa ids cleared).2.2 = false ↔
      (l.filter (acceptEntryKeep ids)).length = l.length) ∧
    ((CleanObsoleteAcceptedEndpointUrls sa ids cleared).2.2 = false →
      (CleanObsoleteAcceptedEndpointUrls sa ids cleared).2.1 = cleared) ∧
    ((CleanObsoleteAcceptedEndpointUrls sa ids cleared).2.2 = true →
      (l.filter (acceptEntryKeep ids) = [] →
        (CleanObsoleteAcceptedEndpointUrls sa ids cleared).2.1 =
          if "consumerAcceptLists" ∈ cleared then cleared
          else cleared ++ ["consumerAcceptLists"]) ∧
      (l.filter (acceptEntryKeep ids) ≠ [] →
        (CleanObsoleteAcceptedEndpointUrls sa ids cleared).2.1 =
          cleared.erase "consumerAcceptLists")) := by
  simp only [CleanObsoleteAcceptedEndpointUrls, hl]
  rw [if_neg hne]
  by_cases h2 : (l.filter (acceptEntryKeep ids)).length = l.length
  · rw [if_pos h2]
    exact ⟨rfl, ⟨fun _ => h2, fun _ => rfl⟩, fun _ => rfl, fun hf => Bool.noConfusion hf⟩
  · rw [if_neg h2]
    by_cases h3 : l.filter (acceptEntryKeep ids) = [] ∧ "consumerAcceptLists" ∉ cleared
    · rw [if_pos h3]
      refine ⟨rfl, ⟨fun hf => Bool.noConfusion hf, fun hlen => absurd hlen h2⟩, fun hf => Bool.noConfusion hf,
        fun _ => ⟨fun _ => ?_, fun hne₂ => absurd h3.1 hne₂⟩⟩
      rw [if_neg h3.2]
    · rw [if_neg h3]
      by_cases h4 : l.filter (acceptEntryKeep ids) ≠ [] ∧ "consumerAcceptLists" ∈ cleared
      · rw [if_pos h4]
        exact ⟨rfl, ⟨fun hf => Bool.noConfusion hf, fun hlen => absurd hlen h2⟩, fun hf => Bool.noConfusion hf,
          fun _ => ⟨fun hnil => absurd hnil h4.1, fun _ => rfl⟩⟩
      · rw [if_neg h4]
        refine ⟨rfl, ⟨fun hf => Bool.noConfusion hf, fun hlen => absurd hlen h2⟩, fun hf => Bool.noConfusion hf,
          fun _ => ⟨fun hnil => ?_, fun hnonnil => ?_⟩⟩
        · have hmem : "consumerAcceptLists" ∈ cleared := by
            by_contra hnm
            exact h3 ⟨hnil, hnm⟩
          rw [if_pos hmem]
        · have hnm : "consumerAcceptLists" ∉ cleared := by
            by_contra hm
            exact h4 ⟨hnonnil, hm⟩
          rw [List.erase_of_not_mem hnm]

theorem cleanAccepted_nochange (sa : ServiceAttachment) (ids cleared : List String)
    (h : sa.consumerAcceptLists = none ∨ sa.consumerAcceptLists = some []) :
    CleanObsoleteAcceptedEndpointUrls sa ids cleared = (sa, cleared, false) := by
  rcases h with h | h <;> simp [CleanObsoleteAcceptedEndpointUrls, h]

theorem cleanRejected_spec (sa : ServiceAttachment) (ids cleared : List String)
    (l : List String)
    (hl : sa.consumerRejectLists = some l) (hne : l ≠ []) :
    (CleanObsoleteRejectedEndpointUrls sa ids cleared).1 =
      {sa with consumerRejectLists := some (l.filter (rejectEntryKeep ids))} ∧
    ((CleanObsoleteRejectedEndpointUrls sa ids cleared).2.2 = false ↔
      (l.filter (rejectEntryKeep ids)).length = l.length) ∧
    ((CleanObsoleteRejectedEndpointUrls sa ids cleared).2.2 = false →
      (CleanObsoleteRejectedEndpointUrls sa ids cleared).2.1 = cleared) ∧
    ((CleanObsoleteRejectedEndpointUrls sa ids cleared).2.2 = true →
      (l.filter (rejectEntryKeep ids) = [] →
        (CleanObsoleteRejectedEndpointUrls sa ids cleared).2.1 =
          if "consumerRejectLists" ∈ cleared then cleared
          else cleared ++ ["consumerRejectLists"]) ∧
      (l.filter (rejectEntryKeep ids) ≠ [] →
        (CleanObsoleteRejectedEndpointUrls sa ids cleared).2.1 =
          cleared.erase "consumerRejectLists")) := by
  simp only [CleanObsoleteRejectedEndpointUrls, hl]
  rw [if_neg hne]
  by_cases h2 : (l.filter (rejectEntryKeep ids)).length = l.length
  · rw [if_pos h2]
    exact ⟨rfl, ⟨fun _ => h2, fun _ => rfl⟩, fun _ => rfl, fun hf => Bool.noConfusion hf⟩
  · rw [if_neg h2]
    by_cases h3 : l.filter (rejectEntryKeep ids) = [] ∧ "consumerRejectLists" ∉ cleared
    · rw [if_pos h3]
      refine ⟨rfl, ⟨fun hf => Bool.noConfusion hf, fun hlen => absurd hlen h2⟩, fun hf => Bool.noConfusion hf,
        fun _ => ⟨fun _ => ?_, fun hne₂ => absurd h3.1 hne₂⟩⟩
      rw [if_neg h3.2]
    · rw [if_neg h3]
      by_cases h4 : l.filter (rejectEntryKeep ids) ≠ [] ∧ "consumerRejectLists" ∈ cleared
      · rw [if_pos h4]
        exact ⟨rfl, ⟨fun hf => Bool.noConfusion hf, fun hlen => absurd hlen h2⟩, fun hf => Bool.noConfusion hf,
          fun _ => ⟨fun hnil => absurd hnil h4.1, fun _ => rfl⟩⟩
      · rw [if_neg h4]
        refine ⟨rfl, ⟨fun hf => Bool.noConfusion hf, fun hlen => absurd hlen h2⟩, fun hf => Bool.noConfusion hf,
          fun _ => ⟨fun hnil => ?_, fun hnonnil => ?_⟩⟩
        · have hmem : "consumerRejectLists" ∈ cleared := by
            by_contra hnm
            exact h3 ⟨hnil, hnm⟩
          rw [if_pos hmem]
        · have hnm : "consumerRejectLists" ∉ cleared := by
            by_contra hm
            exact h4 ⟨hnonnil, hm⟩
          rw [List.erase_of_not_mem hnm]

theorem cleanRejected_nochange (sa : ServiceAttachment) (ids cleared : List String)
    (h : sa.consumerRejectLists = none ∨ sa.consumerRejectLists = some []) :
    CleanObsoleteRejectedEndpointUrls sa ids cleared = (sa, cleared, false) := by
  rcases h with h | h <;> simp [CleanObsoleteRejectedEndpointUrls, h]

end GcloudSdk

namespace GcloudSdk

def targetArgs : Args := ⟨some "t", none, none, none, none, none, none, false, none, none⟩

def emptyOld : ServiceAttachment :=
  ⟨none, none, none, none, none, some [], none, none, none, none⟩

def emptyRejectArgs : Args := ⟨none, none, none, none, none, some [], none, false, none, none⟩

def emptyAcceptArgs : Args := ⟨none, none, none, none, none, none, some [[]], false, none, none⟩

def emptyAcceptOld : ServiceAttachment :=
  ⟨none, none, none, none, none, none, some [], none, none, none⟩

def bugArgs : Args := ⟨none, some "new", none, none, none, none, none, true, none, none⟩

def c5Args : Args :=
  ⟨none, none, none, none, none, none, some [[("projects/p/global/networks/n", none)]],
    true, none, none⟩

def c5WellArgs : Args :=
  ⟨none, none, none, none, none, some ["projects/p"], none, true, none, none⟩

def permRejectArgs : Args :=
  ⟨none, none, none, none, none, some ["a", "b"], none, false, none, none⟩

def c4Accept : List ServiceAttachmentConsumerProjectLimit :=
  [⟨none, none, some "u/forwardingRules/e3", none⟩]

def c4Ids : List String := ["e1", "e2"]

def c4Sa : ServiceAttachment :=
  ⟨none, none, none, none, none, some ["projects/x", "v/forwardingRules/e3"],
    some c4Accept, none, none, none⟩

/-- Claim C1 (code bug): the remove-obsolete block assigns
`is_updated = self._RemoveObsoleteEndpointEntries(...)`, discarding any
earlier update mark.  With a changed description plus the
remove-obsolete flag (and nothing pruned), `_Modify` returns "no change"
and `Run` silently returns the unmodified old resource, dropping the
description update — the claim (and the spec's terminal-outcome rule)
requires the mutated copy to be returned. -/
theorem modify_c1_lost_update_bug :
    bugArgs.description = some "new" ∧
    sampleOld.description = some "old" ∧
    bugArgs.remove_obsolete_endpoint_accept_reject_entries = true ∧
    Modify true bugArgs sampleOld [] = .ok (none, []) ∧
    Run true bugArgs sampleOld = .noRequest sampleOld := by decide

/-- Counterexample to claim C2 as stated: the target-service override is
re-supplied with the value the snapshot already has, yet `_Modify` marks
the result updated and returns a (value-identical) replacement instead of
"no change". -/
theorem modify_c2_counterexample :
    targetArgs.target_service = some "t" ∧
    sampleOld.targetService = some "t" ∧
    Modify false targetArgs sampleOld [] = .ok (some sampleOld, []) := by decide

/-- Claim C2 (amended): for every overridable field except the target
reference, re-supplying a value equal to the snapshot's (repeated fields
compared order-insensitively — the code sorts both sides, so a permuted
multiset compares equal) neither mutates the field nor marks the result
updated; the target reference, by contrast, always marks the result
updated when specified.  The final conjunct runs the reject-list
reordering end to end: a permuted unchanged reject list yields "no
change". -/
theorem modify_c2_amended :
    (∀ (a : Args) (old : ServiceAttachment) (s : MState) (d : String),
      a.description = some d → some d = old.description → stepDescription a old s = s) ∧
    (∀ (a : Args) (old : ServiceAttachment) (s : MState) (cp : String),
      a.connection_preference = some cp →
      GetConnectionPreference cp = old.connectionPreference →
      stepConnectionPreference a old s = s) ∧
    (∀ (a : Args) (old : ServiceAttachment) (s : MState) (b : Bool),
      a.enable_proxy_protocol = some b → some b = old.enableProxyProtocol →
      stepEnableProxyProtocol a old s = s) ∧
    (∀ (a : Args) (old : ServiceAttachment) (s : MState) (l m : List String),
      a.nat_subnets = some l → old.natSubnets = some m → l.Perm m →
      stepNatSubnets a old s = s) ∧
    (∀ (a : Args) (old : ServiceAttachment) (s : MState) (l m : List String),
      a.consumer_reject_list = some l → old.consumerRejectLists = some m → l.Perm m →
      stepRejectList a old s = s) ∧
    (∀ (support : Bool) (a : Args) (old : ServiceAttachment) (s : MState)
      (dicts : List (List (String × Option String)))
      (lst m : List ServiceAttachmentConsumerProjectLimit),
      a.consumer_accept_list = some dicts →
      (if support then GetConsumerAcceptListWithEndpointBasedSecurity dicts
        else GetConsumerAcceptList dicts) = .ok lst →
      old.consumerAcceptLists = some m →
      sortAcceptList support lst = sortAcceptList support m →
      stepAcceptList support a old s = .ok s) ∧
    (∀ (a : Args) (old : ServiceAttachment) (s : MState) (b : Bool),
      a.reconcile_connections = some b → some b = old.reconcileConnections →
      stepReconcileConnections a old s = s) ∧
    (∀ (a : Args) (old : ServiceAttachment) (s : MState) (n : Int),
      a.propagated_connection_limit = some n → some n = old.propagatedConnectionLimit →
      stepPropagatedConnectionLimit a old s = s) ∧
    (∀ (a : Args) (s : MState) (t : String),
      a.target_service = some t → (stepTarget a s).upd = true) ∧
    (∀ (l m : List String) (old : ServiceAttachment), l.Perm m →
      old.consumerRejectLists = some m →
      Modify false ⟨none, none, none, none, none, some l, none, false, none, none⟩ old [] =
        .ok (none, [])) :=
  ⟨fun _ old s _ hd he => stepDescription_same old s hd he,
    fun _ old s _ hd he => stepConnectionPreference_same old s hd he,
    fun _ old s _ hd he => stepEnableProxyProtocol_same old s hd he,
    fun _ old s _ _ hd hold he => stepNatSubnets_same old s hd hold he,
    fun _ old s _ _ hd hold he => stepRejectList_same old s hd hold he,
    fun support _ old s _ _ _ hd hres hold he => stepAcceptList_same support old s hd hres hold he,
    fun _ old s _ hd he => stepReconcileConnections_same old s hd he,
    fun _ old s _ hd he => stepPropagatedConnectionLimit_same old s hd he,
    fun _ s _ ht => stepTarget_marks_updated s ht,
    fun l m old hperm hold => modify_reject_perm_noop l m old hperm hold⟩

/-- Witness for the amended C2: reject list `["a", "b"]` over a snapshot
holding `["b", "a"]` produces "no change". -/
theorem modify_c2_amended_witness :
    Modify false permRejectArgs sampleOld [] = .ok (none, []) :=
  modify_c2_amended.2.2.2.2.2.2.2.2.2 ["a", "b"] ["b", "a"] sampleOld
    (by decide) (by decide)

/-- Counterexample to claim C5 as stated: with endpoint-based security,
remove-obsolete combined with a malformed accept-list override (network
URL without a limit) raises the accept-list normalizer's error, not the
conflicting-arguments error, because the accept-list block runs first. -/
theorem modify_c5_counterexample :
    c5Args.remove_obsolete_endpoint_accept_reject_entries = true ∧
    c5Args.consumer_accept_list.isSome = true ∧
    Modify true c5Args emptyOld [] =
      .error (.valueErr (.connLimitRequiredForNetworkUrl "projects/p/global/networks/n")) ∧
    Modify true c5Args emptyOld [] ≠ .error .conflictingArguments := by decide

/-- Claim C5 (amended): with endpoint-based security, remove-obsolete
combined with a reject-list override, or with an accept-list override the
normalizer accepts, raises the conflicting-arguments error, and the
caller issues no mutating request (the error propagates out of `Run`
before any PATCH).  If the accept-list override itself is malformed, the
normalizer's own error is raised first instead. -/
theorem modify_c5_amended (a : Args) (old : ServiceAttachment)
    (hr : a.remove_obsolete_endpoint_accept_reject_entries = true)
    (hspec : a.consumer_accept_list.isSome = true ∨ a.consumer_reject_list.isSome = true)
    (hok : ∀ dicts, a.consumer_accept_list = some dicts →
      ∃ lst, GetConsumerAcceptListWithEndpointBasedSecurity dicts = .ok lst) :
    Modify true a old [] = .error .conflictingArguments ∧
    Run true a old = .raised .conflictingArguments :=
  modify_c5_conflict_helper a old hr hspec hok

/-- Witness for the amended C5: remove-obsolete plus a reject-list
override raises the conflicting-arguments error. -/
theorem modify_c5_amended_witness :
    Modify true c5WellArgs sampleOld [] = .error .conflictingArguments ∧
    Run true c5WellArgs sampleOld = .raised .conflictingArguments :=
  modify_c5_amended c5WellArgs sampleOld rfl (Or.inr rfl) (fun _ hd => nomatch hd)

/-- Counterexample to claim C6 as stated: an explicit empty reject-list
override over a snapshot whose reject list is already empty adds nothing
to the Field-Clear List (and reports no change), because the
unconditional append sits inside the update branch, which the sorted
comparison skips. -/
theorem modify_c6_counterexample :
    emptyRejectArgs.consumer_reject_list = some [] ∧
    emptyOld.consumerRejectLists = some [] ∧
    Modify false emptyRejectArgs emptyOld [] = .ok (none, []) := by decide

/-- Claim C6 (amended): an explicit reject-list or accept-list override
yielding an empty new list appends the field name to the Field-Clear
List exactly when the update branch is taken — the old field is `None`
or a non-empty list.  When the old list is already empty (and not
`None`), the comparison reports equality and nothing is appended or
updated, for either list. -/
theorem modify_c6_amended :
    (∀ (a : Args) (old : ServiceAttachment) (s : MState),
      a.consumer_reject_list = some [] →
      (old.consumerRejectLists = none ∨
        ∃ m, old.consumerRejectLists = some m ∧ m ≠ []) →
      stepRejectList a old s =
        ⟨{s.repl with consumerRejectLists := some []}, true,
          s.cleared ++ ["consumerRejectLists"]⟩) ∧
    (∀ (support : Bool) (a : Args) (old : ServiceAttachment) (s : MState)
      (dicts : List (List (String × Option String))),
      a.consumer_accept_list = some dicts →
      (if support then GetConsumerAcceptListWithEndpointBasedSecurity dicts
        else GetConsumerAcceptList dicts) = .ok [] →
      (old.consumerAcceptLists = none ∨
        ∃ m, old.consumerAcceptLists = some m ∧ m ≠ []) →
      stepAcceptList support a old s =
        .ok ⟨{s.repl with consumerAcceptLists := some []}, true,
          s.cleared ++ ["consumerAcceptLists"]⟩) ∧
    (∀ (a : Args) (old : ServiceAttachment) (s : MState),
      a.consumer_reject_list = some [] → old.consumerRejectLists = some [] →
      stepRejectList a old s = s) ∧
    (∀ (support : Bool) (a : Args) (old : ServiceAttachment) (s : MState)
      (dicts : List (List (String × Option String))),
      a.consumer_accept_list = some dicts →
      (if support then GetConsumerAcceptListWithEndpointBasedSecurity dicts
        else GetConsumerAcceptList dicts) = .ok [] →
      old.consumerAcceptLists = some [] →
      stepAcceptList support a old s = .ok s) :=
  ⟨fun _ old s hd hold => stepRejectList_empty_update old s hd hold,
    fun support _ old s _ hd hres hold => stepAcceptList_empty_update support old s hd hres hold,
    fun _ old s hd hold => stepRejectList_empty_noop old s hd hold,
    fun support _ old s _ hd hres hold => stepAcceptList_empty_noop support old s hd hres hold⟩

/-- Witness for the amended C6: clearing a non-empty reject list marks
the update and appends the field name, while an empty accept-list
override over an already-empty accept list is a no-op. -/
theorem modify_c6_amended_witness :
    stepRejectList emptyRejectArgs sampleOld ⟨sampleOld, false, []⟩ =
      ⟨{sampleOld with consumerRejectLists := some []}, true, ["consumerRejectLists"]⟩ ∧
    stepAcceptList false emptyAcceptArgs emptyAcceptOld ⟨emptyAcceptOld, false, []⟩ =
      .ok ⟨emptyAcceptOld, false, []⟩ :=
  ⟨modify_c6_amended.1 emptyRejectArgs sampleOld ⟨sampleOld, false, []⟩ rfl
      (Or.inr ⟨["b", "a"], rfl, by decide⟩),
    modify_c6_amended.2.2.2 false emptyAcceptArgs emptyAcceptOld ⟨emptyAcceptOld, false, []⟩
      [[]] rfl (by decide) rfl⟩

/-- Claim C4: each pruning pass keeps exactly the entries its filter
retains (accept entries with a falsy endpoint URL, and reject entries
without the endpoint-path marker, are always kept); it reports no change
exactly when the filtered length is unchanged (leaving the Field-Clear
List untouched), and on a change it appends the field name — at most
once, only when absent — if the result is empty, or erases it if the
result is non-empty; an empty or missing list is a no-op. -/
theorem clean_obsolete_prune_c4 :
    (∀ (sa : ServiceAttachment) (ids cleared : List String)
      (l : List ServiceAttachmentConsumerProjectLimit),
      sa.consumerAcceptLists = some l → l ≠ [] →
      (CleanObsoleteAcceptedEndpointUrls sa ids cleared).1 =
        {sa with consumerAcceptLists := some (l.filter (acceptEntryKeep ids))} ∧
      ((CleanObsoleteAcceptedEndpointUrls sa ids cleared).2.2 = false ↔
        (l.filter (acceptEntryKeep ids)).length = l.length) ∧
      ((CleanObsoleteAcceptedEndpointUrls sa ids cleared).2.2 = false →
        (CleanObsoleteAcceptedEndpointUrls sa ids cleared).2.1 = cleared) ∧
      ((CleanObsoleteAcceptedEndpointUrls sa ids cleared).2.2 = true →
        (l.filter (acceptEntryKeep ids) = [] →
          (CleanObsoleteAcceptedEndpointUrls sa ids cleared).2.1 =
            if "consumerAcceptLists" ∈ cleared then cleared
            else cleared ++ ["consumerAcceptLists"]) ∧
        (l.filter (acceptEntryKeep ids) ≠ [] →
          (CleanObsoleteAcceptedEndpointUrls sa ids cleared).2.1 =
            cleared.erase "consumerAcceptLists"))) ∧
    (∀ (sa : ServiceAttachment) (ids cleared : List String),
      sa.consumerAcceptLists = none ∨ sa.consumerAcceptLists = some [] →
      CleanObsoleteAcceptedEndpointUrls sa ids cleared = (sa, cleared, false)) ∧
    (∀ (ids : List String) (e : ServiceAttachmentConsumerProjectLimit),
      pyFalsy e.endpointUrl = true → acceptEntryKeep ids e = true) ∧
    (∀ (sa : ServiceAttachment) (ids cleared : List String) (l : List String),
      sa.consumerRejectLists = some l → l ≠ [] →
      (CleanObsoleteRejectedEndpointUrls sa ids cleared).1 =
        {sa with consumerRejectLists := some (l.filter (rejectEntryKeep ids))} ∧
      ((CleanObsoleteRejectedEndpointUrls sa ids cleared).2.2 = false ↔
        (l.filter (rejectEntryKeep ids)).length = l.length) ∧
      ((CleanObsoleteRejectedEndpointUrls sa ids cleared).2.2 = false →
        (CleanObsoleteRejectedEndpointUrls sa ids cleared).2.1 = cleared) ∧
      ((CleanObsoleteRejectedEndpointUrls sa ids cleared).2.2 = true →
        (l.filter (rejectEntryKeep ids) = [] →
          (CleanObsoleteRejectedEndpointUrls sa ids cleared).2.1 =
            if "consumerRejectLists" ∈ cleared then cleared
            else cleared ++ ["consumerRejectLists"]) ∧
        (l.filter (rejectEntryKeep ids) ≠ [] →
          (CleanObsoleteRejectedEndpointUrls sa ids cleared).2.1 =
            cleared.erase "consumerRejectLists"))) ∧
    (∀ (sa : ServiceAttachment) (ids cleared : List String),
      sa.consumerRejectLists = none ∨ sa.consumerRejectLists = some [] →
      CleanObsoleteRejectedEndpointUrls sa ids cleared = (sa, cleared, false)) ∧
    (∀ (ids : List String) (e : String),
      pyIn "/forwardingRules/" e = false → rejectEntryKeep ids e = true) :=
  ⟨cleanAccepted_spec, cleanAccepted_nochange,
    fun ids e h => by simp [acceptEntryKeep, h],
    cleanRejected_spec, cleanRejected_nochange,
    fun ids e h => by simp [rejectEntryKeep, h]⟩

/-- Witness for C4 at a concrete snapshot: the obsolete endpoint entry is
pruned from each list; the emptied accept list marks its field cleared,
the still-populated reject list does not. -/
theorem clean_obsolete_prune_c4_witness :
    (CleanObsoleteAcceptedEndpointUrls c4Sa c4Ids []).1 =
      {c4Sa with consumerAcceptLists := some (c4Accept.filter (acceptEntryKeep c4Ids))} ∧
    ((CleanObsoleteAcceptedEndpointUrls c4Sa c4Ids []).2.2 = true →
      (c4Accept.filter (acceptEntryKeep c4Ids) = [] →
        (CleanObsoleteAcceptedEndpointUrls c4Sa c4Ids []).2.1 =
          if "consumerAcceptLists" ∈ ([] : List String) then []
          else [] ++ ["consumerAcceptLists"])) ∧
    ((CleanObsoleteRejectedEndpointUrls c4Sa c4Ids []).2.2 = false ↔
      ((["projects/x", "v/forwardingRules/e3"] : List String).filter
        (rejectEntryKeep c4Ids)).length =
        (["projects/x", "v/forwardingRules/e3"] : List String).length) := by
  have ha := clean_obsolete_prune_c4.1 c4Sa c4Ids [] c4Accept rfl (by decide)
  have hr := clean_obsolete_prune_c4.2.2.2.1 c4Sa c4Ids []
    ["projects/x", "v/forwardingRules/e3"] rfl (by decide)
  exact ⟨ha.1, fun ht hnil => (ha.2.2.2 ht).1 hnil, hr.2.1⟩

end GcloudSdk
